import Mathlib

/-!
Verification of the image-processing core of `n8n-nodes-rust-starter`
(`src-rust/src/image_processor.rs` and the WASM entry points in
`src-rust/src/wasm.rs`).

Modelling conventions:
* Rust `f32` values are embedded as exact rationals `ℚ`; the float-to-integer
  `as` casts of Rust (which truncate toward zero and saturate to the target
  range) are embedded by the explicit functions `i16cast`, `u8cast`, `u32cast`.
* Machine integers `u32`, `u8`, `usize`, `u128` are embedded as `Nat`;
  theorems that need the `u32` range state it as an explicit bound.
* The external photon-rs / image / codec primitives (pixel-level filter math,
  container encode/decode) are out of scope for the specification and are
  embedded as an abstract record of functions `PhotonLib`; every theorem
  quantifies over all instantiations of that record.  The base64 transcoder
  (the `base64` crate's STANDARD engine) is embedded concretely because the
  decode claims depend on its alphabet and padding behaviour.
* `&mut` mutation of the pixel buffer becomes explicit state passing; the
  engines return `Except String PhotonImage` in place of Rust's
  `Result<(), String>` plus mutation.
-/

deriving instance DecidableEq for Except

/-- Truncation of a rational toward zero, the rounding used by Rust's
float-to-integer `as` casts. -/
def intTrunc (q : ℚ) : Int := if 0 ≤ q then ⌊q⌋ else ⌈q⌉

/-- Rust `as i16` on an `f32`: truncate toward zero, saturating to the
`i16` range. -/
def i16cast (q : ℚ) : Int := max (-32768) (min 32767 (intTrunc q))

/-- Rust `as u8` on an `f32`: truncate toward zero, saturating to `[0, 255]`. -/
def u8cast (q : ℚ) : Nat := min 255 (intTrunc q).toNat

/-- Rust `as u32` on an `f32`: truncate toward zero, saturating to the
`u32` range. -/
def u32cast (q : ℚ) : Nat := min 4294967295 (intTrunc q).toNat

/-- Rust `f32::clamp(lo, hi)`. -/
def clampQ (q lo hi : ℚ) : ℚ := max lo (min q hi)

/-- Character of the standard base64 alphabet for a sextet value. -/
def b64char (n : Nat) : Char :=
  if n < 26 then Char.ofNat (65 + n)
  else if n < 52 then Char.ofNat (97 + (n - 26))
  else if n < 62 then Char.ofNat (48 + (n - 52))
  else if n = 62 then '+'
  else '/'

/-- Sextet value of a character of the standard base64 alphabet. -/
def b64val (c : Char) : Option Nat :=
  let n := c.toNat
  if 65 ≤ n ∧ n ≤ 90 then some (n - 65)
  else if 97 ≤ n ∧ n ≤ 122 then some (26 + (n - 97))
  else if 48 ≤ n ∧ n ≤ 57 then some (52 + (n - 48))
  else if c = '+' then some 62
  else if c = '/' then some 63
  else none

/-- Standard base64 encoding (with `=` padding) of a byte list, as performed
by the `base64` crate's STANDARD engine. -/
def b64encodeList : List Nat → List Char
  | [] => []
  | [b0] => [b64char (b0 / 4), b64char ((b0 % 4) * 16), '=', '=']
  | [b0, b1] => [b64char (b0 / 4), b64char ((b0 % 4) * 16 + b1 / 16), b64char ((b1 % 16) * 4), '=']
  | b0 :: b1 :: b2 :: rest =>
      b64char (b0 / 4) :: b64char ((b0 % 4) * 16 + b1 / 16) ::
      b64char ((b1 % 16) * 4 + b2 / 64) :: b64char (b2 % 64) :: b64encodeList rest

/-- Standard base64 decoding (strict: four-character blocks, `=` padding only
at the very end), as performed by the `base64` crate's STANDARD engine.  The
error strings stand in for the crate-internal error display. -/
def b64decodeList : List Char → Except String (List Nat)
  | [] => .ok []
  | c0 :: c1 :: c2 :: c3 :: rest =>
    match b64val c0, b64val c1 with
    | some v0, some v1 =>
      if c2 = '=' then
        if c3 = '=' ∧ rest = [] then .ok [v0 * 4 + v1 / 16]
        else .error "Invalid padding"
      else
        match b64val c2 with
        | some v2 =>
          if c3 = '=' then
            if rest = [] then .ok [v0 * 4 + v1 / 16, (v1 % 16) * 16 + v2 / 4]
            else .error "Invalid padding"
          else
            match b64val c3 with
            | some v3 =>
              match b64decodeList rest with
              | .error e => .error e
              | .ok tail =>
                  .ok ((v0 * 4 + v1 / 16) :: ((v1 % 16) * 16 + v2 / 4) :: ((v2 % 4) * 64 + v3) :: tail)
            | none => .error "Invalid symbol"
        | none => .error "Invalid symbol"
    | _, _ => .error "Invalid symbol"
  | _ => .error "Invalid length"

/-- Rust `str::split(',')` on a character list: the comma-separated segments,
empty segments included. -/
def splitComma : List Char → List (List Char)
  | [] => [[]]
  | c :: rest =>
    if c = ',' then [] :: splitComma rest
    else
      match splitComma rest with
      | s :: ss => (c :: s) :: ss
      | [] => [[c]]

/-- Rust `str::starts_with`. -/
def startsWithLit (p s : String) : Bool := p.toList.isPrefixOf s.toList

/-- Rust `str::to_lowercase` (character-wise lowercasing). -/
def toLowerStr (s : String) : String := String.mk (s.toList.map Char.toLower)

/-- photon-rs `PhotonImage`: a raw RGBA byte buffer with its dimensions. -/
structure PhotonImage where
  raw : List Nat
  width : Nat
  height : Nat
deriving DecidableEq

/-- `ImageProcessingOptions` of `image_processor.rs`.  The source field
`keep_aspect_ratio` is embedded under the shortened name `keep_aspect`. -/
structure ImageProcessingOptions where
  operation : String
  filter : Option String := none
  intensity : Option ℚ := none
  brightness : Option ℚ := none
  contrast : Option ℚ := none
  saturation : Option ℚ := none
  hue_rotation : Option ℚ := none
  resize_width : Option Nat := none
  resize_height : Option Nat := none
  keep_aspect : Option Bool := none
  crop_x : Option Nat := none
  crop_y : Option Nat := none
  crop_width : Option Nat := none
  crop_height : Option Nat := none
  rotation_angle : Option ℚ := none
  flip_horizontal : Option Bool := none
  flip_vertical : Option Bool := none
  output_format : Option String := none
  quality : Option Nat := none
  output_as_binary : Option Bool := none
deriving DecidableEq

/-- `ImageMetadata` of `image_processor.rs`. -/
structure ImageMetadata where
  width : Nat
  height : Nat
  format : String
  size_bytes : Nat
  processing_time_ms : Nat
deriving DecidableEq

/-- `ImageProcessingResult` of `image_processor.rs`. -/
structure ImageProcessingResult where
  success : Bool
  image_data : Option String
  binary_data : Option (List Nat)
  metadata : Option ImageMetadata
  error : Option String
deriving DecidableEq

/-- `BatchProcessingResult` of `image_processor.rs`. -/
structure BatchProcessingResult where
  processed : Nat
  successful : Nat
  failed : Nat
  results : List ImageProcessingResult
  total_time_ms : Nat
deriving DecidableEq

/-- The external photon-rs / image-crate primitives used by the processor.
The specification treats these as black boxes, so the embedding abstracts
over an arbitrary implementation of this record.  `load_from_memory`
collapses `image::load_from_memory` followed by the RGBA normalization and
`PhotonImage::new`; `rgba_from_raw` is `image::RgbaImage::from_raw`;
the three encoders are the codec back ends of `photon_image_to_bytes`
(with the repo's error-message wrapping applied at the call site). -/
structure PhotonLib where
  grayscale : PhotonImage → PhotonImage
  sepia : PhotonImage → PhotonImage
  invert : PhotonImage → PhotonImage
  inc_brightness : PhotonImage → Nat → PhotonImage
  dec_brightness : PhotonImage → Nat → PhotonImage
  alter_red_channel : PhotonImage → Int → PhotonImage
  alter_blue_channel : PhotonImage → Int → PhotonImage
  dramatic : PhotonImage → PhotonImage
  firenze : PhotonImage → PhotonImage
  golden : PhotonImage → PhotonImage
  lix : PhotonImage → PhotonImage
  lofi : PhotonImage → PhotonImage
  neue : PhotonImage → PhotonImage
  obsidian : PhotonImage → PhotonImage
  pastel_pink : PhotonImage → PhotonImage
  ryo : PhotonImage → PhotonImage
  resize : PhotonImage → Nat → Nat → PhotonImage
  crop : PhotonImage → Nat → Nat → Nat → Nat → PhotonImage
  fliph : PhotonImage → PhotonImage
  flipv : PhotonImage → PhotonImage
  edge_detection : PhotonImage → PhotonImage
  emboss : PhotonImage → PhotonImage
  laplace : PhotonImage → PhotonImage
  sobel_horizontal : PhotonImage → PhotonImage
  sobel_vertical : PhotonImage → PhotonImage
  gaussian_blur : PhotonImage → Nat → PhotonImage
  sharpen : PhotonImage → PhotonImage
  threshold : PhotonImage → Nat → PhotonImage
  solarize : PhotonImage → PhotonImage
  load_from_memory : List Nat → Except String PhotonImage
  rgba_from_raw : Nat → Nat → List Nat → Option PhotonImage
  encode_jpeg : PhotonImage → Nat → Except String (List Nat)
  encode_png : PhotonImage → Except String (List Nat)
  encode_webp : PhotonImage → Except String (List Nat)

/-- `ImageProcessor::bytes_to_base64`. -/
def bytes_to_base64 (bytes : List Nat) : String := String.mk (b64encodeList bytes)

/-- `ImageProcessor::bytes_to_base64_data_url`. -/
def bytes_to_base64_data_url (bytes : List Nat) (format : String) : String :=
  "data:image/" ++ format ++ ";base64," ++ bytes_to_base64 bytes

/-- The shared tail of the decode pipeline of
`ImageProcessor::base64_to_photon_image`: base64-decode an already cleaned
string, then load it through the image codec. -/
def decodeCleaned (lib : PhotonLib) (clean_data : String) : Except String PhotonImage :=
  match b64decodeList clean_data.toList with
  | .error e => .error ("Failed to decode base64: " ++ e)
  | .ok image_bytes =>
    match lib.load_from_memory image_bytes with
    | .error e => .error ("Failed to load image: " ++ e)
    | .ok img => .ok img

/-- `ImageProcessor::base64_to_photon_image`.  The data-URL cleaning is the
source's `base64_data.split(',').nth(1).unwrap_or(base64_data)`. -/
def base64_to_photon_image (lib : PhotonLib) (base64_data : String) : Except String PhotonImage :=
  let clean_data :=
    if startsWithLit "data:" base64_data then
      match splitComma base64_data.toList with
      | _ :: x :: _ => String.mk x
      | _ => base64_data
    else base64_data
  decodeCleaned lib clean_data

/-- `ImageProcessor::photon_image_to_bytes`. -/
def photon_image_to_bytes (lib : PhotonLib) (image : PhotonImage) (format : String)
    (quality : Option Nat) : Except String (List Nat) :=
  match lib.rgba_from_raw image.width image.height image.raw with
  | none => .error "Failed to create RGBA image"
  | some dynamic_image =>
    match toLowerStr format with
    | "jpeg" | "jpg" =>
        (lib.encode_jpeg dynamic_image (quality.getD 85)).mapError
          (fun e => "JPEG encoding failed: " ++ e)
    | "png" => (lib.encode_png dynamic_image).mapError (fun e => "PNG encoding failed: " ++ e)
    | "webp" => (lib.encode_webp dynamic_image).mapError (fun e => "WebP encoding failed: " ++ e)
    | _ => .error ("Unsupported output format: " ++ format)

/-- `ImageProcessor::apply_filter`. -/
def apply_filter (lib : PhotonLib) (image : PhotonImage)
    (options : ImageProcessingOptions) : Except String PhotonImage :=
  let filter := options.filter.getD "none"
  let intensity := options.intensity.getD 1
  match filter with
  | "grayscale" => .ok (lib.grayscale image)
  | "sepia" => .ok (lib.sepia image)
  | "invert" => .ok (lib.invert image)
  | "vintage" =>
      let image := lib.sepia image
      let brightness_adj : Nat := if intensity < 1/2 then 20 else 0
      .ok (if brightness_adj > 0 then lib.inc_brightness image brightness_adj else image)
  | "noir" => .ok (lib.inc_brightness (lib.grayscale image) 10)
  | "warm" =>
      .ok (lib.alter_blue_channel (lib.alter_red_channel image (i16cast (intensity * 20)))
            (i16cast (-(intensity * 10))))
  | "cool" =>
      .ok (lib.alter_red_channel (lib.alter_blue_channel image (i16cast (intensity * 20)))
            (i16cast (-(intensity * 10))))
  | "dramatic" => .ok (lib.dramatic image)
  | "firenze" => .ok (lib.firenze image)
  | "golden" => .ok (lib.golden image)
  | "lix" => .ok (lib.lix image)
  | "lofi" => .ok (lib.lofi image)
  | "neue" => .ok (lib.neue image)
  | "obsidian" => .ok (lib.obsidian image)
  | "pastel_pink" => .ok (lib.pastel_pink image)
  | "ryo" => .ok (lib.ryo image)
  | _ => .error ("Unknown filter: " ++ filter)

/-- `ImageProcessor::apply_transform`. -/
def apply_transform (lib : PhotonLib) (image : PhotonImage)
    (options : ImageProcessingOptions) : Except String PhotonImage :=
  let image :=
    match options.resize_width, options.resize_height with
    | some width, some height =>
      let keep := (ImageProcessingOptions.keep_aspect options).getD true
      if keep then
        let original_width : ℚ := image.width
        let original_height : ℚ := image.height
        let aspect : ℚ := original_width / original_height
        let wh : ℚ × ℚ :=
          if (width : ℚ) / (height : ℚ) > aspect then ((height : ℚ) * aspect, (height : ℚ))
          else ((width : ℚ), (width : ℚ) / aspect)
        lib.resize image (u32cast wh.1) (u32cast wh.2)
      else lib.resize image width height
    | _, _ => image
  let image :=
    match options.crop_x, options.crop_y, options.crop_width, options.crop_height with
    | some x, some y, some w, some h => lib.crop image x y w h
    | _, _, _, _ => image
  match options.rotation_angle with
  | some _ => .error "Rotation feature not yet implemented"
  | none =>
    let image := if options.flip_horizontal.getD false then lib.fliph image else image
    let image := if options.flip_vertical.getD false then lib.flipv image else image
    .ok image

/-- `ImageProcessor::apply_adjustments`. -/
def apply_adjustments (lib : PhotonLib) (image : PhotonImage)
    (options : ImageProcessingOptions) : Except String PhotonImage :=
  let image :=
    match options.brightness with
    | some brightness =>
      if brightness > 1 then
        lib.inc_brightness image (u8cast (clampQ ((brightness - 1) * 50) 0 255))
      else if brightness < 1 then
        lib.dec_brightness image (u8cast (clampQ ((1 - brightness) * 50) 0 255))
      else image
    | none => image
  -- contrast: accepted as a field but has no effect in the source
  let image :=
    match options.saturation with
    | some saturation =>
      if saturation < 1/2 then lib.grayscale image
      else if saturation < 1 then
        let reduction := i16cast ((1 - saturation) * 30)
        lib.alter_blue_channel (lib.alter_red_channel image (-reduction)) (-reduction)
      else if saturation > 1 then
        let increase := i16cast ((saturation - 1) * 30)
        lib.alter_blue_channel (lib.alter_red_channel image increase) increase
      else image
    | none => image
  -- hue rotation: accepted as a field but has no effect in the source
  .ok image

/-- `ImageProcessor::apply_effects`. -/
def apply_effects (lib : PhotonLib) (image : PhotonImage)
    (options : ImageProcessingOptions) : Except String PhotonImage :=
  let effect := options.filter.getD "none"
  match effect with
  | "edge_detection" => .ok (lib.edge_detection image)
  | "emboss" => .ok (lib.emboss image)
  | "laplace" => .ok (lib.laplace image)
  | "sobel_horizontal" => .ok (lib.sobel_horizontal image)
  | "sobel_vertical" => .ok (lib.sobel_vertical image)
  | "blur" => .ok (lib.gaussian_blur image 2)
  | "sharpen" => .ok (lib.sharpen image)
  | "threshold" => .ok (lib.threshold image (u32cast ((options.intensity.getD (1/2)) * 255)))
  | "solarize" => .ok (lib.solarize image)
  | "posterize" => .ok (lib.inc_brightness image 20)
  | _ => .error ("Unknown effect: " ++ effect)

/-- The operation dispatch of `ImageProcessor::process_image` (the `match` on
`options.operation` that produces `operation_result`). -/
def dispatch_operation (lib : PhotonLib) (image : PhotonImage)
    (options : ImageProcessingOptions) : Except String PhotonImage :=
  match options.operation with
  | "filter" => apply_filter lib image options
  | "transform" => apply_transform lib image options
  | "adjust" => apply_adjustments lib image options
  | "effect" => apply_effects lib image options
  | _ => .error ("Unknown operation: " ++ options.operation)

/-- `ImageProcessor::process_image`. -/
def process_image (lib : PhotonLib) (base64_input : String)
    (options : ImageProcessingOptions) : ImageProcessingResult :=
  match base64_to_photon_image lib base64_input with
  | .error e => ⟨false, none, none, none, some e⟩
  | .ok photon_image =>
    match dispatch_operation lib photon_image options with
    | .error e => ⟨false, none, none, none, some e⟩
    | .ok photon_image =>
      let output_format := options.output_format.getD "png"
      match photon_image_to_bytes lib photon_image output_format options.quality with
      | .error e => ⟨false, none, none, none, some e⟩
      | .ok image_bytes =>
        let output_as_binary := options.output_as_binary.getD false
        let pair : Option String × Option (List Nat) :=
          if output_as_binary then (some (bytes_to_base64 image_bytes), some image_bytes)
          else (some (bytes_to_base64_data_url image_bytes output_format), none)
        { success := true
          image_data := pair.1
          binary_data := pair.2
          metadata := some
            { width := photon_image.width
              height := photon_image.height
              format := output_format
              size_bytes := image_bytes.length
              processing_time_ms := 0 }
          error := none }

/-- The accumulator loop of `ImageProcessor::process_batch`: running results
list plus the `successful` and `failed` counters. -/
def batchLoop (lib : PhotonLib) (options : ImageProcessingOptions) :
    List String → List ImageProcessingResult × Nat × Nat → List ImageProcessingResult × Nat × Nat
  | [], acc => acc
  | image_data :: rest, (results, successful, failed) =>
    let result := process_image lib image_data options
    if result.success then batchLoop lib options rest (results ++ [result], successful + 1, failed)
    else batchLoop lib options rest (results ++ [result], successful, failed + 1)

/-- `ImageProcessor::process_batch`. -/
def process_batch (lib : PhotonLib) (images : List String)
    (options : ImageProcessingOptions) : BatchProcessingResult :=
  let acc := batchLoop lib options images ([], 0, 0)
  { processed := acc.1.length
    successful := acc.2.1
    failed := acc.2.2
    results := acc.1
    total_time_ms := 0 }

/-- Outcome of a computation that may raise an unexpected runtime fault
(a Rust panic) instead of returning normally. -/
inductive FaultOr (α : Type) where
  | fault : FaultOr α
  | ok : α → FaultOr α
deriving DecidableEq

/-- Panic-aware semantics of the batch loop shared by
`ImageProcessor::process_batch` and `process_image_batch_wasm`: `proc` is the
per-image processing (whose engine internals may raise a runtime fault).
Neither function installs any `catch_unwind` around the per-image call, so a
fault propagates out of the loop and aborts the whole batch, discarding the
accumulator. -/
def process_batch_faultSem (proc : String → FaultOr ImageProcessingResult) :
    List String → List ImageProcessingResult × Nat × Nat →
    FaultOr (List ImageProcessingResult × Nat × Nat)
  | [], acc => .ok acc
  | s :: rest, (results, successful, failed) =>
    match proc s with
    | .fault => .fault
    | .ok result =>
      if result.success then
        process_batch_faultSem proc rest (results ++ [result], successful + 1, failed)
      else
        process_batch_faultSem proc rest (results ++ [result], successful, failed + 1)

/-- Panic-aware semantics of the single-image WASM entry
`process_image_wasm` (`wasm.rs`): the body is wrapped in
`std::panic::catch_unwind`, and a caught fault is converted into the
serialized failure result (JSON marshaling abstracted away). -/
def process_image_wasm_faultSem (proc : String → FaultOr ImageProcessingResult)
    (s : String) : ImageProcessingResult :=
  match proc s with
  | .fault =>
      ⟨false, none, none, none, some "Internal error: Rust code panicked during image processing"⟩
  | .ok r => r

/-- Saturating byte clamp used by the concrete sample implementation of the
external pixel primitives. -/
def clampByte (v : Int) : Nat := (max 0 (min 255 v)).toNat

/-- Add `amt` to every value at index congruent to `off` mod 4 in a flat RGBA
buffer (sample implementation of photon's `alter_*_channel`). -/
def alterChannelAux (off : Nat) (amt : Int) : Nat → List Nat → List Nat
  | _, [] => []
  | i, v :: rest =>
      (if i % 4 = off then clampByte ((v : Int) + amt) else v) :: alterChannelAux off amt (i + 1) rest

/-- Channel shift on a `PhotonImage` (sample implementation). -/
def alterChannel (off : Nat) (img : PhotonImage) (amt : Int) : PhotonImage :=
  { img with raw := alterChannelAux off amt 0 img.raw }

/-- Pointwise byte map on a `PhotonImage` (sample implementation). -/
def mapBytes (f : Nat → Nat) (img : PhotonImage) : PhotonImage :=
  { img with raw := img.raw.map f }

/-- A 1x1 RGBA image used as concrete input for witnesses and
counterexamples. -/
def testImg : PhotonImage := ⟨[100, 50, 100, 255], 1, 1⟩

/-- A 2x2 RGBA image (all-red), mirroring the repo's own test fixture. -/
def testImg2 : PhotonImage := ⟨[255, 0, 0, 255, 255, 0, 0, 255, 255, 0, 0, 255, 255, 0, 0, 255], 2, 2⟩

/-- One concrete instantiation of the abstract external library, used to
instantiate the universally quantified theorems at witness inputs.  The
fancy filters are modelled as the identity (their pixel math is out of
scope); the channel/brightness primitives get a simple concrete semantics so
that shift amounts are observable. -/
def defaultLib : PhotonLib where
  grayscale := mapBytes (fun v => v / 2)
  sepia := id
  invert := mapBytes (fun v => 255 - v)
  inc_brightness := fun img amt => mapBytes (fun v => min 255 (v + amt)) img
  dec_brightness := fun img amt => mapBytes (fun v => v - amt) img
  alter_red_channel := alterChannel 0
  alter_blue_channel := alterChannel 2
  dramatic := id
  firenze := id
  golden := id
  lix := id
  lofi := id
  neue := id
  obsidian := id
  pastel_pink := id
  ryo := id
  resize := fun _ w h => ⟨List.replicate (4 * (w * h)) 0, w, h⟩
  crop := fun _ _ _ w h => ⟨List.replicate (4 * (w * h)) 0, w, h⟩
  fliph := id
  flipv := id
  edge_detection := id
  emboss := id
  laplace := id
  sobel_horizontal := id
  sobel_vertical := id
  gaussian_blur := fun img _ => img
  sharpen := id
  threshold := fun img _ => img
  solarize := id
  load_from_memory := fun _ => .ok testImg
  rgba_from_raw := fun w h raw => if raw.length = 4 * (w * h) then some ⟨raw, w, h⟩ else none
  encode_jpeg := fun img _ => .ok img.raw
  encode_png := fun img => .ok img.raw
  encode_webp := fun img => .ok img.raw

/-- The aspect-ratio-preserving resize target dimensions exactly as the
specification words them: `aspectRatio = originalWidth / originalHeight`; if
`requestedWidth / requestedHeight > aspectRatio` then
`newHeight = requestedHeight` and `newWidth = requestedHeight * aspectRatio`,
else `newWidth = requestedWidth` and `newHeight = requestedWidth /
aspectRatio`, both truncated (not rounded) to integers. -/
def specResizeDims (origW origH reqW reqH : Nat) : Nat × Nat :=
  let aspect : ℚ := (origW : ℚ) / (origH : ℚ)
  if (reqW : ℚ) / (reqH : ℚ) > aspect then (((intTrunc ((reqH : ℚ) * aspect))).toNat, reqH)
  else (reqW, ((intTrunc ((reqW : ℚ) / aspect))).toNat)

/-- The decoder front end as the specification words it for claim C6: for an
input with a `data:` prefix, strip everything up to and including the FIRST
comma and keep the ENTIRE remainder of the string; otherwise keep the whole
string. -/
def specCleanData (s : String) : String :=
  if startsWithLit "data:" s then String.mk ((s.toList.dropWhile (fun c => c != ',')).tail)
  else s

/-- The decode pipeline that claim C6 describes: clean per `specCleanData`,
then base64-decode and load. -/
def specDecodePipeline (lib : PhotonLib) (s : String) : Except String PhotonImage :=
  decodeCleaned lib (specCleanData s)

/-- The amended cleaning rule: for a `data:`-prefixed input containing a
comma, the decoded payload is the segment strictly between the first comma
and the following comma (to the end of the string when there is no second
comma); a `data:`-prefixed input with no comma at all, and any input without
the prefix, is decoded whole. -/
def amendedClean (s : String) : String :=
  if startsWithLit "data:" s then
    if ',' ∈ s.toList then
      String.mk (((s.toList.dropWhile (fun c => c != ',')).tail).takeWhile (fun c => c != ','))
    else s
  else s

/-- The decode pipeline under the amended cleaning rule. -/
def amendedDecodePipeline (lib : PhotonLib) (s : String) : Except String PhotonImage :=
  decodeCleaned lib (amendedClean s)

/-- A concrete per-image processing function for the fault-containment
claim: input `"good"` processes successfully, any other input raises a
runtime fault (as an out-of-bounds crop does inside the image crate). -/
def faultyProc : String → FaultOr ImageProcessingResult := fun s =>
  if s = "good" then .ok ⟨true, some "QQ==", none, some ⟨1, 1, "png", 1, 0⟩, none⟩
  else .fault


theorem countP_add_countP_not (p : α → Bool) (l : List α) :
    l.countP p + l.countP (fun a => !(p a)) = l.length := by
  induction l with
  | nil => simp
  | cons a rest ih =>
    by_cases h : p a <;> simp [List.countP_cons, h, ← ih] <;> omega

/-- C1: for every input string and every options record, the
`ImageProcessingResult` returned by `process_image` satisfies:
`success = true` iff `error` is absent, iff both `image_data` and `metadata`
are present; and a failure result never carries `image_data`, `binary_data`
or `metadata`. -/
theorem claim_c1_result_invariant (lib : PhotonLib) (input : String)
    (options : ImageProcessingOptions) :
    ((process_image lib input options).success = true ↔
      (process_image lib input options).error = none) ∧
    ((process_image lib input options).success = true ↔
      ((process_image lib input options).image_data ≠ none ∧
       (process_image lib input options).metadata ≠ none)) ∧
    ((process_image lib input options).success = false →
      (process_image lib input options).image_data = none ∧
      (process_image lib input options).binary_data = none ∧
      (process_image lib input options).metadata = none) := by
  unfold process_image
  split
  · simp
  · split
    · simp
    · dsimp only
      split
      · simp
      · by_cases hb : options.output_as_binary.getD false <;> simp [hb]

/-- Closed witness for C1 at a concrete successful run. -/
theorem claim_c1_witness :
    (process_image defaultLib "" { operation := "adjust" }).error = none :=
  (claim_c1_result_invariant defaultLib "" { operation := "adjust" }).1.mp (by decide)

theorem batchLoop_eq (lib : PhotonLib) (options : ImageProcessingOptions) :
    ∀ (images : List String) (results : List ImageProcessingResult) (successful failed : Nat),
      batchLoop lib options images (results, successful, failed) =
        (results ++ images.map (fun s => process_image lib s options),
         successful + images.countP (fun s => (process_image lib s options).success),
         failed + images.countP (fun s => !(process_image lib s options).success)) := by
  intro images
  induction images with
  | nil => intro results successful failed; simp [batchLoop]
  | cons s rest ih =>
    intro results successful failed
    by_cases h : (process_image lib s options).success <;>
      simp [batchLoop, h, ih, List.countP_cons] <;> omega

/-- C2: `process_batch` returns `processed` equal to the number of inputs,
`successful + failed = processed` exactly, and a results list that is the
per-input `process_image` outcome in input order (each input yields exactly
one result at its own index; a failure on one input leaves the results of
all other inputs unchanged, since `results[i]` depends only on `input[i]`). -/
theorem claim_c2_batch_accounting (lib : PhotonLib) (images : List String)
    (options : ImageProcessingOptions) :
    (process_batch lib images options).processed = images.length ∧
    (process_batch lib images options).successful + (process_batch lib images options).failed =
      (process_batch lib images options).processed ∧
    (process_batch lib images options).results =
      images.map (fun s => process_image lib s options) ∧
    ∀ i : Nat, (process_batch lib images options).results[i]? =
      (images[i]?).map (fun s => process_image lib s options) := by
  unfold process_batch
  rw [batchLoop_eq lib options images [] 0 0]
  refine ⟨by simp, ?_, by simp, ?_⟩
  · simpa using countP_add_countP_not (fun s => (process_image lib s options).success) images
  · intro i
    simp

/-- C3: evaluation of the batch code at a failing input.  The claim (and §7
of the specification) requires a runtime fault during one image's processing
to be caught at the per-image boundary so the batch never fails outright;
the batch loop of `process_batch` / `process_image_batch_wasm` installs no
such boundary, so the fault aborts the whole two-image batch and the
already-completed result for `"good"` is lost — only the single-image entry
`process_image_wasm` converts the fault into a failure result. -/
theorem claim_c3_fault_propagation :
    process_batch_faultSem faultyProc ["good", "bad"] ([], 0, 0) = FaultOr.fault ∧
    process_image_wasm_faultSem faultyProc "bad" =
      ⟨false, none, none, none,
        some "Internal error: Rust code panicked during image processing"⟩ := by
  constructor <;> rfl

theorem dispatch_eq_transform (lib : PhotonLib) (img : PhotonImage)
    (opts : ImageProcessingOptions) (h : opts.operation = "transform") :
    dispatch_operation lib img opts = apply_transform lib img opts := by
  unfold dispatch_operation
  rw [h]
  rfl

theorem dispatch_eq_filter (lib : PhotonLib) (img : PhotonImage)
    (opts : ImageProcessingOptions) (h : opts.operation = "filter") :
    dispatch_operation lib img opts = apply_filter lib img opts := by
  unfold dispatch_operation
  rw [h]
  rfl

theorem dispatch_eq_adjust (lib : PhotonLib) (img : PhotonImage)
    (opts : ImageProcessingOptions) (h : opts.operation = "adjust") :
    dispatch_operation lib img opts = apply_adjustments lib img opts := by
  unfold dispatch_operation
  rw [h]
  rfl

theorem dispatch_eq_effect (lib : PhotonLib) (img : PhotonImage)
    (opts : ImageProcessingOptions) (h : opts.operation = "effect") :
    dispatch_operation lib img opts = apply_effects lib img opts := by
  unfold dispatch_operation
  rw [h]
  rfl

theorem apply_transform_rotation (lib : PhotonLib) (img : PhotonImage)
    (opts : ImageProcessingOptions) (a : ℚ) (hrot : opts.rotation_angle = some a) :
    apply_transform lib img opts = .error "Rotation feature not yet implemented" := by
  unfold apply_transform
  rw [hrot]

/-- C4: for every decodable input and every options record with operation
`transform` and `rotation_angle` present (whatever its value and whatever
the other transform fields), `process_image` returns a failure result whose
error is the rotation not-implemented message and which carries no
`image_data`, `binary_data` or `metadata` — resize/crop work done before the
rotation check never reaches the output. -/
theorem claim_c4_rotation_error (lib : PhotonLib) (s : String)
    (opts : ImageProcessingOptions) (img : PhotonImage) (a : ℚ)
    (hdec : base64_to_photon_image lib s = Except.ok img)
    (hop : opts.operation = "transform")
    (hrot : opts.rotation_angle = some a) :
    process_image lib s opts =
      ⟨false, none, none, none, some "Rotation feature not yet implemented"⟩ := by
  unfold process_image
  rw [hdec]
  simp only [dispatch_eq_transform lib img opts hop,
    apply_transform_rotation lib img opts a hrot]

/-- Closed witness for C4: a concrete decodable input with a transform
request carrying `rotation_angle` (and a resize that would otherwise
apply). -/
theorem claim_c4_witness :
    process_image defaultLib ""
        { operation := "transform", resize_width := some 4, resize_height := some 4,
          keep_aspect := some false, rotation_angle := some 90 } =
      ⟨false, none, none, none, some "Rotation feature not yet implemented"⟩ :=
  claim_c4_rotation_error defaultLib ""
    { operation := "transform", resize_width := some 4, resize_height := some 4,
      keep_aspect := some false, rotation_angle := some 90 }
    testImg 90 (by decide) rfl rfl

theorem apply_filter_none (lib : PhotonLib) (img : PhotonImage)
    (opts : ImageProcessingOptions) (hfil : opts.filter = none) :
    apply_filter lib img opts = .error "Unknown filter: none" := by
  unfold apply_filter
  rw [hfil]
  rfl

theorem apply_effects_none (lib : PhotonLib) (img : PhotonImage)
    (opts : ImageProcessingOptions) (hfil : opts.filter = none) :
    apply_effects lib img opts = .error "Unknown effect: none" := by
  unfold apply_effects
  rw [hfil]
  rfl

/-- C10: for every decodable input, operation `filter` with the `filter`
field absent falls back to the name `"none"`, which is in neither dispatch
table, so the result is the failure `"Unknown filter: none"`; operation
`effect` likewise yields `"Unknown effect: none"`. -/
theorem claim_c10_default_filter_error (lib : PhotonLib) (s : String)
    (opts : ImageProcessingOptions) (img : PhotonImage)
    (hdec : base64_to_photon_image lib s = Except.ok img)
    (hfil : opts.filter = none) :
    (opts.operation = "filter" →
      process_image lib s opts = ⟨false, none, none, none, some "Unknown filter: none"⟩) ∧
    (opts.operation = "effect" →
      process_image lib s opts = ⟨false, none, none, none, some "Unknown effect: none"⟩) := by
  constructor <;> intro hop
  · unfold process_image
    rw [hdec]
    simp only [dispatch_eq_filter lib img opts hop, apply_filter_none lib img opts hfil]
  · unfold process_image
    rw [hdec]
    simp only [dispatch_eq_effect lib img opts hop, apply_effects_none lib img opts hfil]

/-- Closed witness for C10 at a concrete decodable input. -/
theorem claim_c10_witness :
    process_image defaultLib "" { operation := "filter" } =
      ⟨false, none, none, none, some "Unknown filter: none"⟩ :=
  (claim_c10_default_filter_error defaultLib "" { operation := "filter" } testImg
    (by decide) rfl).1 rfl

theorem splitComma_head (l : List Char) :
    ∃ ss, splitComma l = l.takeWhile (fun c => c != ',') :: ss := by
  induction l with
  | nil => exact ⟨[], rfl⟩
  | cons c rest ih =>
    by_cases h : c = ','
    · subst h
      exact ⟨splitComma rest, by simp [splitComma, List.takeWhile_cons]⟩
    · obtain ⟨ss, hss⟩ := ih
      exact ⟨ss, by simp [splitComma, h, hss, List.takeWhile_cons]⟩

theorem splitComma_no_comma (l : List Char) (h : ',' ∉ l) : splitComma l = [l] := by
  induction l with
  | nil => rfl
  | cons c rest ih =>
    have hc : ¬(c = ',') := fun hh => h (hh ▸ List.mem_cons_self c rest)
    have hr : ',' ∉ rest := fun hh => h (List.mem_cons_of_mem c hh)
    simp [splitComma, hc, ih hr]

theorem splitComma_second (l : List Char) (h : ',' ∈ l) :
    ∃ a t, splitComma l =
      a :: ((l.dropWhile (fun c => c != ',')).tail).takeWhile (fun c => c != ',') :: t := by
  induction l with
  | nil => cases h
  | cons c rest ih =>
    by_cases hc : c = ','
    · subst hc
      obtain ⟨ss, hss⟩ := splitComma_head rest
      refine ⟨[], ss, ?_⟩
      simp [splitComma, hss, List.dropWhile_cons]
    · have hr : ',' ∈ rest := by
        rcases List.mem_cons.mp h with h1 | h1
        · exact absurd h1.symm hc
        · exact h1
      obtain ⟨a, t, hat⟩ := ih hr
      refine ⟨c :: a, t, ?_⟩
      simp [splitComma, hc, hat, List.dropWhile_cons]

/-- C6 counterexample: at the `data:`-prefixed input `"data:x,QQ==,AAAA"`
(which contains a second comma), the code decodes only the segment between
the first and second commas (`"QQ=="`, which decodes fine), whereas the
claim's reading — base64-decode the ENTIRE remainder after the first comma
(`"QQ==,AAAA"`) — fails base64 decoding; so the two pipelines disagree and
the claim as stated is false. -/
theorem claim_c6_counterexample :
    base64_to_photon_image defaultLib "data:x,QQ==,AAAA" ≠
      specDecodePipeline defaultLib "data:x,QQ==,AAAA" := by decide

/-- C6 amended: for a `data:`-prefixed input the decoder base64-decodes the
segment strictly between the first comma and the following comma (up to the
end of the string when no second comma exists); a `data:`-prefixed input
with no comma, and any input without the prefix, is decoded whole. -/
theorem claim_c6_amended (lib : PhotonLib) (s : String) :
    base64_to_photon_image lib s = amendedDecodePipeline lib s := by
  unfold base64_to_photon_image amendedDecodePipeline amendedClean
  by_cases hp : startsWithLit "data:" s
  · simp only [hp, if_true]
    by_cases hc : ',' ∈ s.toList
    · obtain ⟨a, t, hat⟩ := splitComma_second s.toList hc
      rw [hat]
      have hc2 : ',' ∈ s.data := hc
      simp [hc2]
    · rw [splitComma_no_comma s.toList hc]
      have hc2 : ',' ∉ s.data := hc
      simp [hc2]
  · simp [hp]

/-- C8 counterexample: at intensity `19/32 = 0.59375` the warm filter's
red-channel shift is the Rust cast `(0.59375 * 20.0) as i16 = 11`
(truncation), not `round(11.875) = 12` as the claim states, and the
blue-channel shift is `-5`, not `-round(5.9375) = -6`; on a concrete pixel
the two disagree. -/
theorem claim_c8_counterexample :
    apply_filter defaultLib testImg
        { operation := "filter", filter := some "warm", intensity := some (19/32) } ≠
      Except.ok (defaultLib.alter_blue_channel
        (defaultLib.alter_red_channel testImg (round ((19/32 : ℚ) * 20)))
        (-(round ((19/32 : ℚ) * 10)))) := by
  have h1 : i16cast ((19/32 : ℚ) * 20) = 11 := by norm_num [i16cast, intTrunc]
  have h2 : i16cast (-((19/32 : ℚ) * 10)) = -5 := by
    norm_num [i16cast, intTrunc, Int.ceil_neg]
  have h3 : round ((19/32 : ℚ) * 20) = 12 := by norm_num [round_eq]
  have h4 : round ((19/32 : ℚ) * 10) = 6 := by norm_num [round_eq]
  have hL : apply_filter defaultLib testImg
      { operation := "filter", filter := some "warm", intensity := some (19/32) } =
      Except.ok (defaultLib.alter_blue_channel
        (defaultLib.alter_red_channel testImg (i16cast ((19/32 : ℚ) * 20)))
        (i16cast (-((19/32 : ℚ) * 10)))) := rfl
  rw [hL, h1, h2, h3, h4]
  decide

/-- C8 amended: the warm filter shifts the red channel by the saturating
toward-zero truncation of `intensity * 20` and the blue channel by that of
`-(intensity * 10)` (the `as i16` cast, not rounding); the cool filter is
its exact mirror, blue up by the truncation of `intensity * 20` and red
down by that of `intensity * 10`. -/
theorem claim_c8_amended (lib : PhotonLib) (img : PhotonImage)
    (opts : ImageProcessingOptions) (i : ℚ) (hi : opts.intensity = some i) :
    (opts.filter = some "warm" →
      apply_filter lib img opts =
        Except.ok (lib.alter_blue_channel (lib.alter_red_channel img (i16cast (i * 20)))
          (i16cast (-(i * 10))))) ∧
    (opts.filter = some "cool" →
      apply_filter lib img opts =
        Except.ok (lib.alter_red_channel (lib.alter_blue_channel img (i16cast (i * 20)))
          (i16cast (-(i * 10))))) := by
  constructor <;> intro hf <;> unfold apply_filter <;> rw [hf, hi] <;> rfl

/-- Closed witness for the amended C8 at the cool filter with a concrete
intensity. -/
theorem claim_c8_witness :
    apply_filter defaultLib testImg
        { operation := "filter", filter := some "cool", intensity := some (19/32) } =
      Except.ok (defaultLib.alter_red_channel
        (defaultLib.alter_blue_channel testImg (i16cast ((19/32 : ℚ) * 20)))
        (i16cast (-((19/32 : ℚ) * 10)))) :=
  (claim_c8_amended defaultLib testImg
    { operation := "filter", filter := some "cool", intensity := some (19/32) }
    (19/32) rfl).2 rfl

/-- C9 counterexample: at saturation `13/16 = 0.8125` (in `[0.5, 1.0)`) the
channel reduction is the Rust cast `((1.0 - 0.8125) * 30.0) as i16 = 5`
(truncation of `5.625`), not `round(5.625) = 6` as the claim states; on a
concrete pixel the two disagree. -/
theorem claim_c9_counterexample :
    apply_adjustments defaultLib testImg
        { operation := "adjust", saturation := some (13/16) } ≠
      Except.ok (defaultLib.alter_blue_channel
        (defaultLib.alter_red_channel testImg (-(round ((1 - (13/16 : ℚ)) * 30))))
        (-(round ((1 - (13/16 : ℚ)) * 30)))) := by
  have e1 : i16cast ((1 - (13/16 : ℚ)) * 30) = 5 := by norm_num [i16cast, intTrunc]
  have e2 : round ((1 - (13/16 : ℚ)) * 30) = 6 := by norm_num [round_eq]
  have hL : apply_adjustments defaultLib testImg
      { operation := "adjust", saturation := some (13/16) } =
      Except.ok (defaultLib.alter_blue_channel
        (defaultLib.alter_red_channel testImg (-(i16cast ((1 - (13/16 : ℚ)) * 30))))
        (-(i16cast ((1 - (13/16 : ℚ)) * 30)))) := by
    unfold apply_adjustments
    dsimp only
    rw [if_neg (by norm_num : ¬((13/16 : ℚ) < 1/2)), if_pos (by norm_num : (13/16 : ℚ) < 1)]
  rw [hL, e1, e2]
  decide

/-- C9 amended: in the adjust operation, saturation below `0.5` forces a
full grayscale conversion; saturation in `[0.5, 1.0)` subtracts the
saturating toward-zero truncation of `(1 - saturation) * 30` (the `as i16`
cast, not rounding) from the red and blue channels; saturation above `1.0`
adds the truncation of `(saturation - 1) * 30` to both channels; saturation
exactly `1.0` is a no-op. -/
theorem claim_c9_amended (lib : PhotonLib) (img : PhotonImage)
    (opts : ImageProcessingOptions) (s : ℚ)
    (hb : opts.brightness = none) (hs : opts.saturation = some s) :
    (s < 1/2 → apply_adjustments lib img opts = Except.ok (lib.grayscale img)) ∧
    (1/2 ≤ s → s < 1 →
      apply_adjustments lib img opts =
        Except.ok (lib.alter_blue_channel
          (lib.alter_red_channel img (-(i16cast ((1 - s) * 30))))
          (-(i16cast ((1 - s) * 30))))) ∧
    (1 < s →
      apply_adjustments lib img opts =
        Except.ok (lib.alter_blue_channel
          (lib.alter_red_channel img (i16cast ((s - 1) * 30)))
          (i16cast ((s - 1) * 30)))) ∧
    (s = 1 → apply_adjustments lib img opts = Except.ok img) := by
  refine ⟨?_, ?_, ?_, ?_⟩
  · intro h
    unfold apply_adjustments
    rw [hb, hs]
    dsimp only
    rw [if_pos h]
  · intro h1 h2
    unfold apply_adjustments
    rw [hb, hs]
    dsimp only
    rw [if_neg (not_lt.mpr h1), if_pos h2]
  · intro h
    unfold apply_adjustments
    rw [hb, hs]
    dsimp only
    rw [if_neg (by linarith : ¬(s < 1/2)), if_neg (not_lt.mpr (le_of_lt h)), if_pos h]
  · intro h
    subst h
    unfold apply_adjustments
    rw [hb, hs]
    dsimp only
    rw [if_neg (by norm_num : ¬((1 : ℚ) < 1/2)),
      if_neg (lt_irrefl (1 : ℚ)), if_neg (lt_irrefl (1 : ℚ))]

/-- Closed witness for the amended C9 in the `[0.5, 1.0)` branch at a
concrete saturation. -/
theorem claim_c9_witness :
    apply_adjustments defaultLib testImg
        { operation := "adjust", saturation := some (13/16) } =
      Except.ok (defaultLib.alter_blue_channel
        (defaultLib.alter_red_channel testImg (-(i16cast ((1 - (13/16 : ℚ)) * 30))))
        (-(i16cast ((1 - (13/16 : ℚ)) * 30)))) :=
  (claim_c9_amended defaultLib testImg
    { operation := "adjust", saturation := some (13/16) } (13/16) rfl rfl).2.1
    (by norm_num) (by norm_num)

theorem b64char_ne_colon (n : Nat) : b64char n ≠ ':' := by
  by_cases h : n < 64
  · exact (by decide : ∀ m, m < 64 → b64char m ≠ ':') n h
  · unfold b64char
    rw [if_neg (by omega), if_neg (by omega), if_neg (by omega), if_neg (by omega)]
    decide

theorem colon_ne_b64char (n : Nat) : ¬(':' = b64char n) := fun h => b64char_ne_colon n h.symm

theorem colon_notin_b64encodeList (bs : List Nat) : ':' ∉ b64encodeList bs := by
  induction bs using b64encodeList.induct with
  | case1 => simp [b64encodeList]
  | case2 b0 => simp [b64encodeList, colon_ne_b64char]
  | case3 b0 b1 => simp [b64encodeList, colon_ne_b64char]
  | case4 b0 b1 b2 rest ih => simp [b64encodeList, colon_ne_b64char, ih]

theorem startsWithLit_data_b64 (bs : List Nat) :
    startsWithLit "data:" (bytes_to_base64 bs) = false := by
  rw [Bool.eq_false_iff]
  intro h
  have hp : "data:".toList <+: (bytes_to_base64 bs).toList := by
    have := h
    unfold startsWithLit at this
    simpa using this
  obtain ⟨t, ht⟩ := hp
  have hmem : ':' ∈ (bytes_to_base64 bs).toList := by
    rw [← ht]
    exact List.mem_append_left t (by decide)
  exact colon_notin_b64encodeList bs hmem

theorem startsWithLit_self_append (p rest : String) :
    startsWithLit p (p ++ rest) = true := by
  unfold startsWithLit
  rw [show (p ++ rest).toList = p.toList ++ rest.toList from rfl]
  simp

/-- C7: on every successful `process_image` run, `output_as_binary = true`
yields a result whose `binary_data` holds the encoded output bytes and whose
`image_data` is their raw base64 with no `data:` prefix; with
`output_as_binary` false or absent, `image_data` starts with
`data:image/<format>;base64,` and `binary_data` is absent. -/
theorem claim_c7_output_modes (lib : PhotonLib) (input : String)
    (opts : ImageProcessingOptions)
    (hs : (process_image lib input opts).success = true) :
    (opts.output_as_binary = some true →
      ∃ bs, (process_image lib input opts).binary_data = some bs ∧
        (process_image lib input opts).image_data = some (bytes_to_base64 bs) ∧
        startsWithLit "data:" (bytes_to_base64 bs) = false) ∧
    (opts.output_as_binary ≠ some true →
      (process_image lib input opts).binary_data = none ∧
      ∃ d, (process_image lib input opts).image_data = some d ∧
        startsWithLit ("data:image/" ++ opts.output_format.getD "png" ++ ";base64,") d
          = true) := by
  revert hs
  unfold process_image
  split
  · simp
  · split
    · simp
    · dsimp only
      split
      · simp
      · intro _
        constructor
        · intro hbin
          rw [hbin]
          dsimp only [Option.getD, if_true]
          exact ⟨_, rfl, rfl, startsWithLit_data_b64 _⟩
        · intro hnb
          have hgf : opts.output_as_binary.getD false = false := by
            cases hob : opts.output_as_binary with
            | none => rfl
            | some b =>
              cases b with
              | false => rfl
              | true => exact absurd hob hnb
          rw [hgf]
          dsimp only [if_false]
          refine ⟨rfl, _, rfl, ?_⟩
          unfold bytes_to_base64_data_url
          rw [show "data:image/" ++ opts.output_format.getD "png" ++ ";base64," ++
                bytes_to_base64 _ =
              ("data:image/" ++ opts.output_format.getD "png" ++ ";base64,") ++
                bytes_to_base64 _ from rfl]
          exact startsWithLit_self_append _ _

/-- Closed witness for C7 at a concrete successful binary-output run. -/
theorem claim_c7_witness :
    ∃ bs, (process_image defaultLib ""
        { operation := "adjust", output_as_binary := some true }).binary_data = some bs ∧
      (process_image defaultLib ""
        { operation := "adjust", output_as_binary := some true }).image_data =
        some (bytes_to_base64 bs) ∧
      startsWithLit "data:" (bytes_to_base64 bs) = false :=
  (claim_c7_output_modes defaultLib ""
    { operation := "adjust", output_as_binary := some true } (by decide)).1 rfl

theorem intTrunc_natCast (n : Nat) : intTrunc (n : ℚ) = n := by
  unfold intTrunc
  rw [if_pos (by positivity)]
  exact Int.floor_natCast n

theorem u32cast_of_bound (q : ℚ) (h0 : 0 ≤ q) (hlt : q < 4294967296) :
    u32cast q = (intTrunc q).toNat := by
  unfold u32cast
  apply min_eq_right
  have h1 : intTrunc q = ⌊q⌋ := by unfold intTrunc; rw [if_pos h0]
  have h2 : ⌊q⌋ < 4294967296 := by
    have hle := Int.floor_le q
    have hcast : (⌊q⌋ : ℚ) < 4294967296 := lt_of_le_of_lt hle hlt
    exact_mod_cast hcast
  have h3 : 0 ≤ ⌊q⌋ := Int.le_floor.mpr (by exact_mod_cast h0)
  rw [h1]
  omega

theorem u32cast_natCast (n : Nat) (h : n < 4294967296) : u32cast (n : ℚ) = n := by
  rw [u32cast_of_bound _ (by positivity) (by exact_mod_cast h), intTrunc_natCast]
  simp

/-- C5: in the transform operation, resize triggers only when both
`resize_width` and `resize_height` are supplied; with aspect-ratio
preservation (absent or true, the default), the target dimensions follow the
specification's formula `specResizeDims` (aspect = originalWidth /
originalHeight; if requestedWidth/requestedHeight > aspect then height wins,
else width wins; truncated, not rounded); with `keep_aspect_ratio = false`
the requested dimensions are used exactly as given.  The other transform
fields are absent so that the resize step is the observable outcome; the
`u32` range bounds reflect the Rust field types. -/
theorem claim_c5_resize_geometry (lib : PhotonLib) (img : PhotonImage)
    (opts : ImageProcessingOptions)
    (hcx : opts.crop_x = none) (hrot : opts.rotation_angle = none)
    (hfh : opts.flip_horizontal = none) (hfv : opts.flip_vertical = none)
    (hw0 : 0 < img.width) (hh0 : 0 < img.height) :
    (∀ W H, opts.resize_width = some W → opts.resize_height = some H →
      W < 4294967296 → H < 4294967296 → 0 < H →
      (opts.keep_aspect = none ∨ opts.keep_aspect = some true) →
      apply_transform lib img opts =
        Except.ok (lib.resize img (specResizeDims img.width img.height W H).1
          (specResizeDims img.width img.height W H).2)) ∧
    (∀ W H, opts.resize_width = some W → opts.resize_height = some H →
      opts.keep_aspect = some false →
      apply_transform lib img opts = Except.ok (lib.resize img W H)) ∧
    ((opts.resize_width = none ∨ opts.resize_height = none) →
      apply_transform lib img opts = Except.ok img) := by
  have hWq0 : (0 : ℚ) ≤ (img.width : ℚ) := by positivity
  have hHq0 : (0 : ℚ) < (img.height : ℚ) := by exact_mod_cast hh0
  have ha0 : (0 : ℚ) ≤ (img.width : ℚ) / (img.height : ℚ) := by positivity
  have hap : (0 : ℚ) < (img.width : ℚ) / (img.height : ℚ) :=
    div_pos (by exact_mod_cast hw0) hHq0
  refine ⟨?_, ?_, ?_⟩
  · intro W H hw hh hWb hHb hHpos hka
    have hHq : (0 : ℚ) < (H : ℚ) := by exact_mod_cast hHpos
    have hWqb : (W : ℚ) < 4294967296 := by exact_mod_cast hWb
    have hHqb : (H : ℚ) < 4294967296 := by exact_mod_cast hHb
    unfold apply_transform specResizeDims
    rw [hw, hh, hcx, hrot, hfh, hfv]
    rcases hka with hka | hka <;> rw [hka] <;> dsimp only <;>
      by_cases hc : (W : ℚ) / (H : ℚ) > (img.width : ℚ) / (img.height : ℚ)
    all_goals first
      | (rw [if_pos hc]
         have hb1 : (H : ℚ) * ((img.width : ℚ) / (img.height : ℚ)) < (W : ℚ) := by
           have := (lt_div_iff₀ hHq).mp hc
           linarith
         rw [u32cast_of_bound ((H : ℚ) * ((img.width : ℚ) / (img.height : ℚ)))
              (by positivity) (lt_trans hb1 hWqb),
            u32cast_natCast H hHb, if_pos hc]
         rfl)
      | (rw [if_neg hc]
         have hb2 : (W : ℚ) / ((img.width : ℚ) / (img.height : ℚ)) ≤ (H : ℚ) := by
           rw [div_le_iff₀ hap]
           have := (div_le_iff₀ hHq).mp (not_lt.mp hc)
           linarith
         rw [u32cast_of_bound ((W : ℚ) / ((img.width : ℚ) / (img.height : ℚ)))
              (by positivity) (lt_of_le_of_lt hb2 hHqb),
            u32cast_natCast W hWb, if_neg hc]
         rfl)
  · intro W H hw hh hk
    unfold apply_transform
    rw [hw, hh, hk, hcx, hrot, hfh, hfv]
    rfl
  · intro hnone
    unfold apply_transform
    rcases hnone with hn | hn
    · rw [hn, hcx, hrot, hfh, hfv]
      rfl
    · rcases hrw : opts.resize_width with _ | W <;>
        rw [hn, hcx, hrot, hfh, hfv] <;> rfl

/-- Closed witness for C5: an aspect-preserving 2x2 to 4x4 resize through
the spec formula. -/
theorem claim_c5_witness :
    apply_transform defaultLib testImg2
        { operation := "transform", resize_width := some 4, resize_height := some 4 } =
      Except.ok (defaultLib.resize testImg2 (specResizeDims 2 2 4 4).1
        (specResizeDims 2 2 4 4).2) :=
  (claim_c5_resize_geometry defaultLib testImg2
    { operation := "transform", resize_width := some 4, resize_height := some 4 }
    rfl rfl rfl rfl (by decide) (by decide)).1
    4 4 rfl rfl (by norm_num) (by norm_num) (by norm_num) (Or.inl rfl)
